import Mathlib

/-!
Shallow embedding of `src/agent_tourist.py` (tourist wellness-check agent).

The embedding models the three request handlers (`trigger_event`,
`twilio_voice`, `twilio_gather`), the decision function
(`llm_decide_action`), and the global in-memory session store
`CALL_STATE`.  External collaborators are modelled at their interface
boundary: the Groq oracle call is an `OracleOutcome` input (transport
failure vs. response text already run through `json.loads`), the Twilio
carrier is a `carrierSid` input, and Python exceptions propagating out of
a handler are `Except.error`.
-/

set_option autoImplicit false

namespace AgentTourist

/-- JSON values as produced by Python `json.loads` (JSON `null` and Python
`None` are both `Json.null`, as in Python). -/
inductive Json where
  | null : Json
  | bool (b : Bool) : Json
  | num (n : Int) : Json
  | str (s : String) : Json
  | arr (elems : List Json) : Json
  | obj (fields : List (String × Json)) : Json

/-- First binding of a key in a JSON object, like Python dict lookup. -/
def jlookup : List (String × Json) → String → Option Json
  | [], _ => none
  | (k, v) :: t, key => if k = key then some v else jlookup t key

/-- Python `str.lower()` (ASCII case folding, which is all the source relies on). -/
def pyLower (s : String) : String :=
  ⟨s.data.map Char.toLower⟩

/-- Whether `lead` is an initial segment of the second list. -/
def chLead : List Char → List Char → Bool
  | [], _ => true
  | _ :: _, [] => false
  | a :: as, b :: bs => a == b && chLead as bs

/-- Whether `needle` occurs as a contiguous run inside `hay`. -/
def chHasSub (needle : List Char) : List Char → Bool
  | [] => chLead needle []
  | b :: bs => chLead needle (b :: bs) || chHasSub needle bs

/-- Python `needle in hay` on strings: substring containment. -/
def strContains (hay needle : String) : Bool :=
  chHasSub needle.data hay.data

/-- Keys of the global dict `CALL_STATE`.  `twilio_gather` keys it by
`request.query_params.get("call_sid")` and `twilio_voice` looks it up by
`form.get("CallSid")`, both of which are `None` when absent, so keys are
optional strings (Python dicts can be keyed by `None`). -/
abbrev Key := Option String

/-- The value stored by `twilio_gather` under the `response` key:
`{"digits": digits, "speech": speech_result, "raw": dict(form)}`. -/
structure GatherResponse where
  digits : Option String
  speech : Option String
  raw : List (String × String)

/-- One metadata dict stored in `CALL_STATE`.  Each field is `none` when
the corresponding Python dict key is absent (a present key holding Python
`None` is `some Json.null` where the value is a JSON value). -/
structure SessionRecord where
  user_id : Option Int := none
  phone : Option String := none
  message : Option Json := none
  decision : Option Json := none
  attempts : Option Nat := none
  response : Option GatherResponse := none
  twilio_sid : Option String := none

/-- The global in-memory store `CALL_STATE = {}`, as an insertion-ordered
association list (Python dict observables: first/only binding per key). -/
abbrev Store := List (Key × SessionRecord)

/-- Python dict lookup `CALL_STATE.get(k)` / `CALL_STATE[k]`: first binding. -/
def storeGet : Store → Key → Option SessionRecord
  | [], _ => none
  | (k, v) :: t, key => if k = key then some v else storeGet t key

/-- Python dict assignment `CALL_STATE[k] = v`: replace the binding in
place, or append a new one. -/
def storeSet : Store → Key → SessionRecord → Store
  | [], key, v => [(key, v)]
  | (k, w) :: t, key, v => if k = key then (key, v) :: t else (k, w) :: storeSet t key v

/-- Deletion part of Python `CALL_STATE.pop(k)`: drop the binding of `k`. -/
def storeErase : Store → Key → Store
  | [], _ => []
  | (k, w) :: t, key => if k = key then t else (k, w) :: storeErase t key

/-- Result of the call to the decision oracle in `llm_decide_action`:
either the transport layer raised (connection error, timeout,
`raise_for_status`, missing envelope fields) or it produced the content
text, which `json.loads` either parsed (`some`) or failed to parse
(`none`, i.e. `json.loads` raised). -/
inductive OracleOutcome where
  | failure
  | content (parsed : Option Json)

/-- The message of the hard-coded fallback decision. -/
def fallbackMessageText : String :=
  "Hello, this is Tourist Safety. We detected unusual activity. Are you safe? Press 1 for Yes, 2 for Help."

/-- The hard-coded fallback decision dict of `llm_decide_action`. -/
def fallbackDecision : Json :=
  .obj [("action", .str "call"),
        ("message", .str fallbackMessageText),
        ("escalation", .bool true),
        ("max_attempts", .num 2)]

/-- `llm_decide_action`: the `try`/`except` wraps only `json.loads(text)`,
so only a parse failure yields the fallback dict; an exception from the
HTTP request, timeout, status check or envelope indexing propagates. -/
def llm_decide_action (outcome : OracleOutcome) : Except Unit Json :=
  match outcome with
  | .failure => .error ()
  | .content none => .ok fallbackDecision
  | .content (some j) => .ok j

/-- Python `d.get(key, dflt)`: raises (`AttributeError`) when `d` is not a
dict, otherwise returns the bound value or the default. -/
def pyDictGetD (d : Json) (key : String) (dflt : Json) : Except Unit Json :=
  match d with
  | .obj fields => .ok ((jlookup fields key).getD dflt)
  | _ => .error ()

/-- Python `v.lower()`: raises when `v` is not a string. -/
def pyStrLower (v : Json) : Except Unit String :=
  match v with
  | .str s => .ok (pyLower s)
  | _ => .error ()

/-- `decision.get("action","").lower()` as evaluated in `trigger_event`. -/
def decisionAction (decision : Json) : Except Unit String :=
  match pyDictGetD decision "action" (.str "") with
  | .error e => .error e
  | .ok v => pyStrLower v

/-- The `TriggerEvent` pydantic model. -/
structure TriggerEvent where
  user_id : Int
  user_name : String
  phone : String
  event_type : String
  event_payload : List (String × Json)

/-- The JSON body returned by the `/trigger_event` endpoint. -/
inductive TriggerResult where
  | calling (twilio_sid : String)
  | notified
  | ignored (decision : Json)

/-- The metadata dict `trigger_event` stores under the fresh `call_sid`:
`{"user_id": ..., "phone": ..., "message": decision.get("message"),
"decision": decision, "attempts": 0}`. -/
def triggerRecord (event : TriggerEvent) (decision msg : Json) : SessionRecord :=
  { user_id := some event.user_id, phone := some event.phone,
    message := some msg, decision := some decision, attempts := some 0 }

/-- The `/trigger_event` handler.  `tempId` is the fresh `uuid.uuid4()`
string and `carrierSid` the sid Twilio assigns to the placed call (both
nondeterministic inputs of the handler).  `Except.error` is an unhandled
Python exception (FastAPI would surface a 500). -/
def trigger_event (store : Store) (oracle : OracleOutcome) (event : TriggerEvent)
    (tempId carrierSid : String) : Except Unit (Store × TriggerResult) :=
  match llm_decide_action oracle with
  | .error e => .error e
  | .ok decision =>
    match decisionAction decision with
    | .error e => .error e
    | .ok action =>
      if action = "call" then
        match pyDictGetD decision "message" .null with
        | .error e => .error e
        | .ok msg =>
          let rec0 := triggerRecord event decision msg
          let store1 := storeSet store (some tempId) rec0
          match storeGet store1 (some tempId) with
          | none => .error ()
          | some popped =>
            let store2 := storeErase store1 (some tempId)
            let store3 := storeSet store2 (some carrierSid) popped
            let store4 := storeSet store3 (some carrierSid) { popped with twilio_sid := some carrierSid }
            .ok (store4, .calling carrierSid)
      else if action = "notify" then
        match pyDictGetD decision "message" .null with
        | .error e => .error e
        | .ok _msg => .ok (store, .notified)
      else
        .ok (store, .ignored decision)

/-- The default message in `twilio_voice` when the record (or its
`message` key) is missing. -/
def defaultVoiceMessage : String :=
  "We noticed unusual activity. Are you safe? Press 1 for Yes, 2 for Help."

/-- The TwiML document built by `twilio_voice`: a `Gather` verb with a
spoken message, followed by a fallback `Say`. -/
structure VoicePromptOut where
  gatherInputModes : String
  gatherNumDigits : Nat
  gatherTimeoutSecs : Nat
  gatherAction : String
  message : Json
  fallbackSay : String

/-- Rendering of a key inside the f-string of the gather action URL
(Python formats `None` as the text `None`). -/
def keyText : Key → String
  | some s => s
  | none => "None"

/-- The `/twilio/voice` handler: looks up `CALL_STATE.get(call_sid, {})`,
picks `meta.get("message", default)` and renders TwiML; it never writes
to the store. -/
def twilio_voice (store : Store) (callSid : Key) (baseUrl : String) : Store × VoicePromptOut :=
  let meta := (storeGet store callSid).getD {}
  let message := meta.message.getD (.str defaultVoiceMessage)
  (store,
   { gatherInputModes := "dtmf speech", gatherNumDigits := 1, gatherTimeoutSecs := 6,
     gatherAction := baseUrl ++ "/twilio/gather?call_sid=" ++ keyText callSid,
     message := message,
     fallbackSay := "We did not receive input. We will try again." })

/-- Externally observable actions of the `/twilio/gather` handler.  The
`escalateSession` effect is the escalation handoff the spec describes;
it is declared so that its absence is expressible — the source only
mentions escalation in comments and never performs it. -/
inductive Effect where
  | sayText (text : String)
  | escalateSession (sid : Key)
  deriving DecidableEq

/-- Number of escalation handoffs in a list of effects. -/
def escalationCount (effects : List Effect) : Nat :=
  effects.countP fun e =>
    match e with
    | .escalateSession _ => true
    | _ => false

/-- The branch condition of `twilio_gather`:
`digits == "1" or (speech_result and "safe" in speech_result.lower())`
(Python truthiness: `None` and the empty string are falsy). -/
def gatherSafeInput (digits speech : Option String) : Bool :=
  digits == some "1" ||
    (match speech with
     | none => false
     | some s => !(s == "") && strContains (pyLower s) "safe")

/-- Spoken response of the safe branch of `twilio_gather`. -/
def safeGoodbyeSay : String := "Glad you are safe. We have noted this. Goodbye."

/-- Spoken response of the other (escalation-message) branch of `twilio_gather`. -/
def alertSay : String := "We have alerted your emergency contact and authorities. Help is on the way."

/-- The `/twilio/gather` handler: records the captured response under the
response key of `CALL_STATE.setdefault(call_sid, ...)` (creating a fresh
record when the key is unknown), then answers with one of two fixed Say
texts.  No escalation call exists in the source (only a comment). -/
def twilio_gather (store : Store) (digits speech : Option String)
    (raw : List (String × String)) (callSid : Key) : Store × List Effect :=
  let resp : GatherResponse := { digits := digits, speech := speech, raw := raw }
  let store1 :=
    match storeGet store callSid with
    | some r => storeSet store callSid { r with response := some resp }
    | none => storeSet store callSid { response := some resp }
  if gatherSafeInput digits speech then
    (store1, [.sayText safeGoodbyeSay])
  else
    (store1, [.sayText alertSay])

/-! Sample concrete inputs used by counterexamples and witnesses. -/

/-- A concrete trigger event (the panic-button scenario of the spec). -/
def sampleEvent : TriggerEvent :=
  { user_id := 7, user_name := "Asha", phone := "+15550100",
    event_type := "panic_button", event_payload := [] }

/-- A store holding one freshly created session: zero attempts made, and
the fallback decision (whose max_attempts is 2) as its policy. -/
def sampleStore : Store :=
  [(some "CA9",
    { user_id := some 7, phone := some "+15550100",
      message := some (.str "Are you safe? Press 1 for Yes, 2 for Help."),
      decision := some fallbackDecision, attempts := some 0 })]

/-! Store lemmas. -/

theorem storeGet_storeSet_self (s : Store) (k : Key) (v : SessionRecord) :
    storeGet (storeSet s k v) k = some v := by
  induction s with
  | nil => simp [storeSet, storeGet]
  | cons hd t ih =>
    obtain ⟨k1, w⟩ := hd
    by_cases h : k1 = k
    · simp [storeSet, h, storeGet]
    · simp [storeSet, h, storeGet, ih]

theorem storeGet_storeSet_ne (s : Store) (k key : Key) (v : SessionRecord)
    (h : key ≠ k) : storeGet (storeSet s k v) key = storeGet s key := by
  have hk : ¬k = key := fun hh => h hh.symm
  induction s with
  | nil => simp [storeSet, storeGet, hk]
  | cons hd t ih =>
    obtain ⟨k1, w⟩ := hd
    by_cases h1 : k1 = k
    · subst h1
      simp [storeSet, storeGet, hk]
    · simp [storeSet, h1, storeGet, ih]

theorem storeErase_storeSet_of_none (s : Store) (k : Key) (v : SessionRecord)
    (h : storeGet s k = none) : storeErase (storeSet s k v) k = s := by
  induction s with
  | nil => simp [storeSet, storeErase]
  | cons hd t ih =>
    obtain ⟨k1, w⟩ := hd
    by_cases hk : k1 = k
    · simp [storeGet, hk] at h
    · simp [storeGet, hk] at h
      simp [storeSet, hk, storeErase, ih h]

theorem storeSet_storeSet_same (s : Store) (k : Key) (v : SessionRecord) :
    storeSet (storeSet s k v) k v = storeSet s k v := by
  induction s with
  | nil => simp [storeSet]
  | cons hd t ih =>
    obtain ⟨k1, w⟩ := hd
    by_cases hk : k1 = k
    · simp [storeSet, hk]
    · simp [storeSet, hk, ih]

/-- Updating the response field to the value it already holds is the identity. -/
theorem SessionRecord.set_response_self (v : SessionRecord) (resp : GatherResponse)
    (h : v.response = some resp) : { v with response := some resp } = v := by
  cases v
  simp only [SessionRecord.response] at h
  simp [h]

/-! Handler-shape lemmas. -/

/-- The reply of `twilio_gather` is a pure function of the captured input. -/
theorem twilio_gather_snd (store : Store) (digits speech : Option String)
    (raw : List (String × String)) (sid : Key) :
    (twilio_gather store digits speech raw sid).2 =
      if gatherSafeInput digits speech then [Effect.sayText safeGoodbyeSay]
      else [Effect.sayText alertSay] := by
  cases hs : gatherSafeInput digits speech <;> simp [twilio_gather, hs]

/-- The store written by `twilio_gather` is the input store with the
session record under `sid` holding the captured response. -/
theorem twilio_gather_fst (store : Store) (digits speech : Option String)
    (raw : List (String × String)) (sid : Key) :
    ∃ v : SessionRecord,
      v.response = some { digits := digits, speech := speech, raw := raw } ∧
      (twilio_gather store digits speech raw sid).1 = storeSet store sid v := by
  cases hg : storeGet store sid with
  | none =>
    refine ⟨{ response := some { digits := digits, speech := speech, raw := raw } }, rfl, ?_⟩
    cases hs : gatherSafeInput digits speech <;> simp [twilio_gather, hg, hs]
  | some r =>
    refine ⟨{ r with response := some { digits := digits, speech := speech, raw := raw } }, rfl, ?_⟩
    cases hs : gatherSafeInput digits speech <;> simp [twilio_gather, hg, hs]

/-- A nonempty needle is not contained in the empty string. -/
theorem strContains_empty_safe : strContains (pyLower "") "safe" = false := by
  decide

/-- Unfolding of the call branch of `trigger_event`. -/
theorem trigger_event_call (store : Store) (oracle : OracleOutcome) (event : TriggerEvent)
    (t c : String) (d m : Json)
    (h1 : llm_decide_action oracle = Except.ok d)
    (h2 : decisionAction d = Except.ok "call")
    (h3 : pyDictGetD d "message" Json.null = Except.ok m) :
    trigger_event store oracle event t c =
      Except.ok
        (storeSet
          (storeSet (storeErase (storeSet store (some t) (triggerRecord event d m)) (some t))
            (some c) (triggerRecord event d m))
          (some c) { triggerRecord event d m with twilio_sid := some c },
         TriggerResult.calling c) := by
  unfold trigger_event
  rw [h1]
  simp only [h2, h3, storeGet_storeSet_self]
  simp

/-! Claims. -/

/-- C1 (counterexample): refutes the claim that a failing or timed-out
oracle call yields the fallback decision and a calling status.  When the
HTTP call to the oracle raises (the transport failure or timeout case),
`llm_decide_action` propagates the exception instead of returning the
fallback decision, and the trigger handler surfaces an error instead of
returning status calling. -/
theorem oracle_failure_no_fallback :
    llm_decide_action OracleOutcome.failure = Except.error () ∧
    llm_decide_action OracleOutcome.failure ≠ Except.ok fallbackDecision ∧
    trigger_event sampleStore OracleOutcome.failure sampleEvent "tmp-1" "CA1" = Except.error () := by
  refine ⟨rfl, ?_, rfl⟩
  intro h
  exact Except.noConfusion h

/-- C1 (amended): only oracle output that fails to parse as JSON yields
the fixed fallback decision (action call, generic safety-check message,
escalate true, max attempts 2), in which case the trigger handler
returns status calling; an oracle call that fails or times out instead
propagates its exception out of the trigger handler. -/
theorem fallback_only_on_parse_failure (store : Store) (event : TriggerEvent) (t c : String) :
    llm_decide_action (OracleOutcome.content none) = Except.ok fallbackDecision ∧
    llm_decide_action OracleOutcome.failure = Except.error () ∧
    ∃ s2, trigger_event store (OracleOutcome.content none) event t c =
      Except.ok (s2, TriggerResult.calling c) :=
  ⟨rfl, rfl, ⟨_, trigger_event_call store (OracleOutcome.content none) event t c
    fallbackDecision (Json.str fallbackMessageText) rfl rfl rfl⟩⟩

/-- C2 (counterexample): refutes the claim that a no-input callback with
attemptsMade below max attempts transitions the session to the retrying
outcome.  In `sampleStore` the session has 0 attempts made against a max
of 2, yet the no-input callback takes the escalation-message branch. -/
theorem no_input_retry_refuted :
    (storeGet sampleStore (some "CA9")).bind (fun r => r.attempts) = some 0 ∧
    pyDictGetD fallbackDecision "max_attempts" Json.null = Except.ok (Json.num 2) ∧
    (twilio_gather sampleStore none none [] (some "CA9")).2 = [Effect.sayText alertSay] :=
  ⟨rfl, rfl, rfl⟩

/-- C2 (amended): every response-collection callback whose captured input
is not the recognized safe response (keypress 1 or speech containing the
token safe) takes the escalation-message branch immediately, regardless
of attemptsMade and of the decision max attempts; no retry branch
exists. -/
theorem non_safe_input_escalates (store : Store) (digits speech : Option String)
    (raw : List (String × String)) (sid : Key)
    (h : gatherSafeInput digits speech = false) :
    (twilio_gather store digits speech raw sid).2 = [Effect.sayText alertSay] := by
  rw [twilio_gather_snd, h]
  rfl

/-- C2 (witness): the amended claim at a concrete no-input callback. -/
theorem non_safe_input_escalates_witness :
    gatherSafeInput none none = false ∧
    (twilio_gather sampleStore none none [] (some "CA9")).2 = [Effect.sayText alertSay] :=
  ⟨by decide, non_safe_input_escalates sampleStore none none [] (some "CA9") (by decide)⟩

/-- C3: the response-collection handler never performs an escalation
handoff, whatever the session and input: the only external effect of any
callback is a spoken message (the escalation call exists in the source
only as a comment), so no escalation handler is ever invoked, let alone
exactly once per escalated session. -/
theorem gather_never_invokes_escalation (store : Store) (digits speech : Option String)
    (raw : List (String × String)) (sid : Key) :
    escalationCount (twilio_gather store digits speech raw sid).2 = 0 := by
  rw [twilio_gather_snd]
  cases gatherSafeInput digits speech <;> rfl

/-- C4 (counterexample): refutes keypress precedence.  With keypress 2
and simultaneous speech containing the token safe, the handler takes the
safe branch, not the escalation branch. -/
theorem keypress2_precedence_refuted :
    (twilio_gather [] (some "2") (some "I am safe") [] (some "CA1")).2
      = [Effect.sayText safeGoodbyeSay] ∧
    [Effect.sayText safeGoodbyeSay] ≠ [Effect.sayText alertSay] :=
  ⟨rfl, by decide⟩

/-- C4 (amended): when both a keypress and a speech transcript are
present, speech containing the token safe takes precedence over keypress
2: such a callback resolves to the safe branch; keypress 2 takes the
escalation branch only when the speech does not contain the token. -/
theorem speech_safe_overrides_keypress2 (store : Store) (raw : List (String × String))
    (sid : Key) (s : String) :
    (strContains (pyLower s) "safe" = true →
      (twilio_gather store (some "2") (some s) raw sid).2 = [Effect.sayText safeGoodbyeSay]) ∧
    (strContains (pyLower s) "safe" = false →
      (twilio_gather store (some "2") (some s) raw sid).2 = [Effect.sayText alertSay]) := by
  constructor
  · intro h
    have hne : (s == "") = false := by
      cases hs : s == "" with
      | false => rfl
      | true =>
        have : s = "" := by simpa using hs
        rw [this] at h
        exact absurd h (by decide)
    have hsafe : gatherSafeInput (some "2") (some s) = true := by
      simp [gatherSafeInput, hne, h]
    rw [twilio_gather_snd, hsafe]
    rfl
  · intro h
    have hsafe : gatherSafeInput (some "2") (some s) = false := by
      simp [gatherSafeInput, h]
    rw [twilio_gather_snd, hsafe]
    rfl

/-- C4 (witness): the amended claim at concrete inputs, covering both
the safe-speech branch and the escalation branch. -/
theorem speech_safe_overrides_keypress2_witness :
    (twilio_gather [] (some "2") (some "It is SAFE here") [] (some "CA2")).2
      = [Effect.sayText safeGoodbyeSay] ∧
    (twilio_gather [] (some "2") (some "no") [] (some "CA2")).2
      = [Effect.sayText alertSay] :=
  ⟨(speech_safe_overrides_keypress2 [] [] (some "CA2") "It is SAFE here").1 (by decide),
   (speech_safe_overrides_keypress2 [] [] (some "CA2") "no").2 (by decide)⟩

/-- C5: keypress 1, or a speech transcript containing the token safe
(case-insensitively), always takes the safe branch of the
response-collection handler — in particular keypress 1 does so whatever
the simultaneous speech says. -/
theorem safe_inputs_resolve_safe (store : Store) (digits speech : Option String)
    (raw : List (String × String)) (sid : Key)
    (h : digits = some "1" ∨ ∃ s, speech = some s ∧ strContains (pyLower s) "safe" = true) :
    (twilio_gather store digits speech raw sid).2 = [Effect.sayText safeGoodbyeSay] := by
  have hsafe : gatherSafeInput digits speech = true := by
    rcases h with h | ⟨s, hsp, hc⟩
    · simp [gatherSafeInput, h]
    · have hne : (s == "") = false := by
        cases hs : s == "" with
        | false => rfl
        | true =>
          have hss : s = "" := by simpa using hs
          rw [hss] at hc
          exact absurd hc (by decide)
      simp [gatherSafeInput, hsp, hne, hc]
  rw [twilio_gather_snd, hsafe]
  rfl

/-- C5 (witness): keypress 1 together with negative speech still takes
the safe branch. -/
theorem safe_inputs_resolve_safe_witness :
    (twilio_gather [] (some "1") (some "help") [] (some "CA3")).2
      = [Effect.sayText safeGoodbyeSay] :=
  safe_inputs_resolve_safe [] (some "1") (some "help") [] (some "CA3") (Or.inl rfl)

/-- C6 (counterexample): refutes the claim that attemptsMade is
incremented each time the voice prompt is delivered.  In `sampleStore`
the session has 0 attempts made; after the voice-prompt callback runs,
attempts is still 0, not 1. -/
theorem voice_attempt_increment_refuted :
    (storeGet sampleStore (some "CA9")).bind (fun r => r.attempts) = some 0 ∧
    (storeGet ((twilio_voice sampleStore (some "CA9") "https://example.org").1) (some "CA9")).bind
      (fun r => r.attempts) = some 0 ∧
    (some 0 : Option Nat) ≠ some 1 :=
  ⟨rfl, rfl, by decide⟩

/-- C6 (amended): attemptsMade starts at 0 when the trigger handler
creates the session, and is never incremented: the voice-prompt handler
leaves the session store entirely unchanged, so no code path bounds
attempts by max attempts or forces escalation from them. -/
theorem attempts_zero_never_incremented :
    (∀ (store : Store) (event : TriggerEvent) (t c : String), ∃ s2,
        trigger_event store (OracleOutcome.content none) event t c =
          Except.ok (s2, TriggerResult.calling c) ∧
        (storeGet s2 (some c)).bind (fun r => r.attempts) = some 0) ∧
    (∀ (store : Store) (sid : Key) (baseUrl : String),
        (twilio_voice store sid baseUrl).1 = store) := by
  constructor
  · intro store event t c
    refine ⟨_, trigger_event_call store (OracleOutcome.content none) event t c
      fallbackDecision (Json.str fallbackMessageText) rfl rfl rfl, ?_⟩
    rw [storeGet_storeSet_self]
    rfl
  · intro store sid baseUrl
    rfl

/-- C7: for a trigger event whose decision has action call, the session
record stored under the fresh temporary id ends up keyed by the
carrier-assigned call sid (with the twilio_sid field recorded), and the
temporary id no longer maps to any record — given that the carrier sid
differs from the fresh temporary id and the temporary id is fresh for
the store, as uuid4 guarantees. -/
theorem trigger_rekeys_session (store : Store) (oracle : OracleOutcome) (event : TriggerEvent)
    (t c : String) (d m : Json)
    (h1 : llm_decide_action oracle = Except.ok d)
    (h2 : decisionAction d = Except.ok "call")
    (h3 : pyDictGetD d "message" Json.null = Except.ok m)
    (hne : t ≠ c)
    (hfresh : storeGet store (some t) = none) :
    ∃ s2, trigger_event store oracle event t c = Except.ok (s2, TriggerResult.calling c) ∧
      storeGet s2 (some t) = none ∧
      storeGet s2 (some c) = some { triggerRecord event d m with twilio_sid := some c } := by
  have hkey : (some t : Key) ≠ some c := fun hh => hne (Option.some.inj hh)
  refine ⟨_, trigger_event_call store oracle event t c d m h1 h2 h3, ?_, ?_⟩
  · rw [storeGet_storeSet_ne _ _ _ _ hkey, storeGet_storeSet_ne _ _ _ _ hkey,
      storeErase_storeSet_of_none _ _ _ hfresh, hfresh]
  · exact storeGet_storeSet_self ..

/-- C7 (witness): the rekey property at a concrete trigger event. -/
theorem trigger_rekeys_session_witness :
    ∃ s2, trigger_event [] (OracleOutcome.content none) sampleEvent "tmp-7" "CA7" =
        Except.ok (s2, TriggerResult.calling "CA7") ∧
      storeGet s2 (some "tmp-7") = none ∧
      storeGet s2 (some "CA7") =
        some { triggerRecord sampleEvent fallbackDecision (Json.str fallbackMessageText) with
               twilio_sid := some "CA7" } :=
  trigger_rekeys_session [] (OracleOutcome.content none) sampleEvent "tmp-7" "CA7"
    fallbackDecision (Json.str fallbackMessageText) rfl rfl rfl (by decide) rfl

/-- C8 (counterexample): refutes the claim that a callback for an
unknown session id produces no change to the session store.  On an empty
store, the response-collection callback for an unknown id creates a
record under that id. -/
theorem unknown_session_gather_writes :
    storeGet ([] : Store) (some "CA404") = none ∧
    storeGet ((twilio_gather [] none none [] (some "CA404")).1) (some "CA404")
      = some { response := some { digits := none, speech := none, raw := [] } } :=
  ⟨rfl, rfl⟩

/-- C8 (amended): for an unknown session id, the voice-prompt callback
leaves the store unchanged and renders the default message, and the
response-collection callback surfaces no error and returns a well-formed
voice response — but it does write to the store, creating a record
holding the captured response under the unknown id. -/
theorem unknown_session_callbacks (store : Store) (sid : Key) (baseUrl : String)
    (digits speech : Option String) (raw : List (String × String))
    (h : storeGet store sid = none) :
    (twilio_voice store sid baseUrl).1 = store ∧
    (twilio_voice store sid baseUrl).2.message = Json.str defaultVoiceMessage ∧
    storeGet ((twilio_gather store digits speech raw sid).1) sid
      = some { response := some { digits := digits, speech := speech, raw := raw } } ∧
    ∃ text, (twilio_gather store digits speech raw sid).2 = [Effect.sayText text] := by
  refine ⟨rfl, ?_, ?_, ?_⟩
  · simp [twilio_voice, h]
  · cases hs : gatherSafeInput digits speech <;>
      simp [twilio_gather, h, hs, storeGet_storeSet_self]
  · rw [twilio_gather_snd]
    cases gatherSafeInput digits speech
    · exact ⟨alertSay, rfl⟩
    · exact ⟨safeGoodbyeSay, rfl⟩

/-- C8 (witness): the amended claim on an empty store. -/
theorem unknown_session_callbacks_witness :
    (twilio_voice [] (some "CA405") "https://example.org").1 = ([] : Store) ∧
    (twilio_voice [] (some "CA405") "https://example.org").2.message
      = Json.str defaultVoiceMessage ∧
    storeGet ((twilio_gather [] none none [] (some "CA405")).1) (some "CA405")
      = some { response := some { digits := none, speech := none, raw := [] } } ∧
    ∃ text, (twilio_gather [] none none [] (some "CA405")).2 = [Effect.sayText text] :=
  unknown_session_callbacks [] (some "CA405") "https://example.org" none none [] rfl

/-- C9: invoking the response-collection callback a second time with an
identical payload, after a first invocation whose input classified as
safe, changes nothing: the store after the second invocation equals the
store after the first, the reply is identical, and no escalation handoff
happens. -/
theorem gather_idempotent_after_safe (store : Store) (digits speech : Option String)
    (raw : List (String × String)) (sid : Key)
    (_h : gatherSafeInput digits speech = true) :
    (twilio_gather (twilio_gather store digits speech raw sid).1 digits speech raw sid).1
      = (twilio_gather store digits speech raw sid).1 ∧
    (twilio_gather (twilio_gather store digits speech raw sid).1 digits speech raw sid).2
      = (twilio_gather store digits speech raw sid).2 ∧
    escalationCount
      (twilio_gather (twilio_gather store digits speech raw sid).1 digits speech raw sid).2
        = 0 := by
  obtain ⟨v, hv, hfst⟩ := twilio_gather_fst store digits speech raw sid
  refine ⟨?_, ?_, ?_⟩
  · rw [hfst]
    have hget : storeGet (storeSet store sid v) sid = some v := storeGet_storeSet_self ..
    cases hs : gatherSafeInput digits speech <;>
      simp [twilio_gather, hget, hs,
        SessionRecord.set_response_self v { digits := digits, speech := speech, raw := raw } hv,
        storeSet_storeSet_same]
  · rw [twilio_gather_snd, twilio_gather_snd]
  · rw [twilio_gather_snd]
    cases gatherSafeInput digits speech <;> rfl

/-- C9 (witness): idempotence at a concrete safe payload. -/
theorem gather_idempotent_after_safe_witness :
    (twilio_gather (twilio_gather [] (some "1") none [] (some "CA5")).1
        (some "1") none [] (some "CA5")).1
      = (twilio_gather [] (some "1") none [] (some "CA5")).1 ∧
    (twilio_gather (twilio_gather [] (some "1") none [] (some "CA5")).1
        (some "1") none [] (some "CA5")).2
      = (twilio_gather [] (some "1") none [] (some "CA5")).2 ∧
    escalationCount
      (twilio_gather (twilio_gather [] (some "1") none [] (some "CA5")).1
        (some "1") none [] (some "CA5")).2 = 0 :=
  gather_idempotent_after_safe [] (some "1") none [] (some "CA5") (by decide)

/-- C10: the voice-prompt handler is a pure read: it returns the store
untouched, and when the call sid maps to no record it renders the
default message. -/
theorem voice_prompt_pure_read (store : Store) (sid : Key) (baseUrl : String) :
    (twilio_voice store sid baseUrl).1 = store ∧
    (storeGet store sid = none →
      (twilio_voice store sid baseUrl).2.message = Json.str defaultVoiceMessage) := by
  refine ⟨rfl, fun h => ?_⟩
  simp [twilio_voice, h]

/-- C10 (witness): the voice handler on an empty store. -/
theorem voice_prompt_pure_read_witness :
    (twilio_voice [] (some "CA406") "https://example.org").1 = ([] : Store) ∧
    (twilio_voice [] (some "CA406") "https://example.org").2.message
      = Json.str defaultVoiceMessage :=
  ⟨(voice_prompt_pure_read [] (some "CA406") "https://example.org").1,
   (voice_prompt_pure_read [] (some "CA406") "https://example.org").2 rfl⟩

end AgentTourist
